import Mathlib

/-!
Verification development for the Akash provider pricing script (Go).

The Go sources (`gpu.go`, `cache.go`, `whitelist.go`, `pricing.go`, `types.go`)
are shallowly embedded below.  Go `float64` quantities are modelled as `ℚ`,
Go `int64` as `ℤ`, Go maps as association lists with overwrite-on-insert,
fallible code as `Except`, and the process environment (HTTP responses,
cache-file state, whitelist outcome, configured price targets) as explicit
parameters.
-/

namespace PricingModel

/-! ## GPU price mappings (`gpu.go`)

A Go `map[string]float64` is modelled as an association list where insertion
removes any previous binding of the key (Go map assignment overwrites). -/

abbrev GpuMap := List (String × ℚ)

/-- Accumulator-passing core of `goSplit`: collect characters of the current
field (in reverse) and emit a field at each separator. -/
def splitCharAux (sep : Char) : List Char → List Char → List String
  | [], acc => [String.mk acc.reverse]
  | c :: cs, acc =>
    if c = sep then String.mk acc.reverse :: splitCharAux sep cs []
    else splitCharAux sep cs (c :: acc)

/-- Model of Go `strings.Split` for a single-character separator (the only
form the source uses: `","`, `"="`, `"/"`).  Splitting the empty string
yields `[""]`, as in Go. -/
def goSplit (sep : Char) (s : String) : List String :=
  splitCharAux sep s.data []

/-- Model of Go map assignment `m[k] = v`: any previous binding of `k` is
replaced. -/
def mapInsert (m : GpuMap) (k : String) (v : ℚ) : GpuMap :=
  m.filter (fun p => p.1 ≠ k) ++ [(k, v)]

/-- Model of Go map lookup `m[k]`, returning `none` when the key is absent. -/
def lookupMap (m : GpuMap) (k : String) : Option ℚ :=
  (m.find? (fun p => p.1 = k)).map (fun p => p.2)

/-- Loop body of `ParseGPUPriceMappings` over the comma-separated segments.
Empty segments are skipped (`if pair == "" { continue }`); a segment must
split on `=` into exactly two parts and the second must parse as a float
(`strconv.ParseFloat` is the library primitive, passed in as `pf`). -/
def parsePairs (pf : String → Option ℚ) : List String → GpuMap → Except String GpuMap
  | [], m => .ok m
  | pair :: rest, m =>
    if pair = "" then parsePairs pf rest m
    else
      match goSplit '=' pair with
      | [k, vs] =>
        match pf vs with
        | some v => parsePairs pf rest (mapInsert m k v)
        | none => .error ("invalid GPU price for " ++ k)
      | _ => .error ("invalid GPU mapping: " ++ pair)

/-- Embedding of `ParseGPUPriceMappings` (gpu.go).  The empty input string
returns an empty map without error; otherwise the string is split on commas
and each segment processed in order, stopping at the first bad segment. -/
def ParseGPUPriceMappings (pf : String → Option ℚ) (mappingStr : String) : Except String GpuMap :=
  if mappingStr = "" then .ok []
  else parsePairs pf (goSplit ',' mappingStr) []

/-- Embedding of `MaxGPUPrice` (gpu.go): fold over the mapping values starting
from the fixed default `100.0`, keeping the running value unless a strictly
larger price is seen. -/
def MaxGPUPrice (gpuMappings : GpuMap) : ℚ :=
  gpuMappings.foldl (fun maxPrice p => if p.2 > maxPrice then p.2 else maxPrice) 100

/-! ## GPU attribute parsing and price resolution (`gpu.go`) -/

/-- Inner loop of `CalculateTotalGPUPrice` over the `/`-separated parts of one
attribute key: on seeing a part equal to `model` / `ram` / `interface`, the
following part (when it exists) is recorded.  The accumulator is
`(model, vram, interfaceType)`. -/
def scanKeyParts : List String → String × String × String → String × String × String
  | [], acc => acc
  | part :: rest, (m, v, it) =>
    let acc :=
      if part = "model" then
        match rest with
        | nxt :: _ => (nxt, v, it)
        | [] => (m, v, it)
      else if part = "ram" then
        match rest with
        | nxt :: _ => (m, nxt, it)
        | [] => (m, v, it)
      else if part = "interface" then
        match rest with
        | nxt :: _ => (m, v, nxt)
        | [] => (m, v, it)
      else (m, v, it)
    scanKeyParts rest acc

/-- Fold of `scanKeyParts` over all GPU attribute keys, as in the source
(`for _, attr := range ...GPU.Attributes`), with later attributes overriding
earlier ones. -/
def parseGPUAttributes (attrs : List (String × String)) : String × String × String :=
  attrs.foldl (fun acc attr => scanKeyParts (goSplit '/' attr.1) acc) ("", "", "")

/-- Key construction from `CalculateTotalGPUPrice`: `model`, with `.vram` and
`.interface` appended when those components are non-empty. -/
def gpuKeyOf (model vram interfaceType : String) : String :=
  let gpuKey := model
  let gpuKey := if vram ≠ "" then gpuKey ++ "." ++ vram else gpuKey
  if interfaceType ≠ "" then gpuKey ++ "." ++ interfaceType else gpuKey

/-- Price resolution for a single GPU descriptor, exactly as in the source:
look up the constructed key; on a miss, the fallback chain
(`model.vram`, then `model`, then the default price) runs only under the
guard `interfaceType != ""`; otherwise the Go zero value `0.0` from the
failed map lookup is used. -/
def resolveGPUPrice (gpuMappings : GpuMap) (model vram interfaceType : String)
    (maxGPUPrice : ℚ) : ℚ :=
  match lookupMap gpuMappings (gpuKeyOf model vram interfaceType) with
  | some price => price
  | none =>
    if interfaceType ≠ "" then
      match lookupMap gpuMappings (model ++ "." ++ vram) with
      | some price => price
      | none =>
        match lookupMap gpuMappings model with
        | some price => price
        | none => maxGPUPrice
    else 0

/-! ## Resource request data model (`types.go` and the akash-api types used
by the source).  Only the fields the source reads are modelled. -/

/-- Endpoint kinds from the akash-api `v1beta3.Endpoint` enum; the source only
distinguishes `LEASED_IP` from the rest. -/
inductive EndpointKind where
  | sharedHTTP
  | randomPort
  | leasedIP
deriving DecidableEq, Repr

structure Endpoint where
  kind : EndpointKind
deriving DecidableEq, Repr

/-- One storage entry: `Name`, `Quantity.Val` (bytes) and `Attributes`. -/
structure StorageEntry where
  name : String
  size : ℤ
  attributes : List (String × String)
deriving DecidableEq, Repr

/-- GPU descriptor: `Units.Val` and `Attributes` (key/value pairs whose keys
encode vendor/model/ram/interface as `/`-separated tokens). -/
structure GPUSpec where
  units : ℤ
  attributes : List (String × String)
deriving DecidableEq, Repr

/-- The resource bundle of one `ResourceUnit`: optional CPU (milli-cores),
optional memory (bytes), optional GPU, storage entries, endpoints. -/
structure ResourceBundle where
  cpu : Option ℤ
  memory : Option ℤ
  gpu : Option GPUSpec
  storage : List StorageEntry
  endpoints : List Endpoint
deriving DecidableEq, Repr

/-- Price attached to a resource unit (`sdk.DecCoin`): denomination string and
arbitrary-precision decimal amount, modelled as `ℚ`. -/
structure DecCoin where
  denom : String
  amount : ℚ
deriving DecidableEq, Repr

/-- One line item of a `GroupSpec`: resources, repetition count and price. -/
structure ResourceUnit where
  resources : ResourceBundle
  count : ℕ
  price : DecCoin
deriving DecidableEq, Repr

structure GroupSpec where
  resources : List ResourceUnit
deriving DecidableEq, Repr

/-- The bid request handed to `RequestToBidPrice` (`types.go`). -/
structure Request where
  owner : String
  gspec : Option GroupSpec
  pricePrecision : ℕ
deriving DecidableEq, Repr

/-- Embedding of `CalculateTotalGPUPrice` (gpu.go): for each resource unit
carrying a GPU, parse the attributes, resolve the price and accumulate
`count * units * price`. -/
def CalculateTotalGPUPrice (gSpec : GroupSpec) (gpuMappings : GpuMap)
    (maxGPUPrice : ℚ) : ℚ :=
  gSpec.resources.foldl (fun totalGPUPrice resourceUnit =>
    match resourceUnit.resources.gpu with
    | none => totalGPUPrice
    | some gpu =>
      let mvi := parseGPUAttributes gpu.attributes
      let price := resolveGPUPrice gpuMappings mvi.1 mvi.2.1 mvi.2.2 maxGPUPrice
      totalGPUPrice + (resourceUnit.count : ℚ) * (gpu.units : ℚ) * price) 0

/-! ## Price-feed cache (`cache.go`)

The cache file is modelled as `Option (ℚ × ℚ)`: the stored price and the
file age in minutes (`time.Since(ModTime)`); `none` is a missing file.
An HTTP response is a network failure, a JSON decode failure, or a decoded
JSON document. -/

/-- Minimal JSON value model for the two API response shapes the source
handles. -/
inductive Json where
  | num (q : ℚ)
  | str (s : String)
  | bool (b : Bool)
  | null
  | arr (elems : List Json)
  | obj (fields : List (String × Json))

/-- First binding of a field name in a JSON object (Go map lookup on the
decoded `map[string]interface{}`). -/
def jLookup (fields : List (String × Json)) (k : String) : Option Json :=
  (fields.find? (fun p => p.1 = k)).map (fun p => p.2)

/-- Outcome of `http.Get` + `json.Decode`: network error, malformed body, or
a decoded document. -/
inductive HTTPResp where
  | netError
  | badJson
  | body (j : Json)

/-- Embedding of `extractPrice` (cache.go): on a JSON object, return the
`price` field if it is a number; otherwise the `akash-network.usd` nested
number; in every other case return `0`. -/
def extractPrice : Json → ℚ
  | .obj fields =>
    match jLookup fields "price" with
    | some (.num price) => price
    | _ =>
      match jLookup fields "akash-network" with
      | some (.obj nested) =>
        match jLookup nested "usd" with
        | some (.num price) => price
        | _ => 0
      | _ => 0
  | _ => 0

/-- Embedding of `fetchPriceFromURL` (cache.go): propagate network and decode
errors; on a decoded body return `extractPrice` with no error. -/
def fetchPriceFromURL : HTTPResp → Except String ℚ
  | .netError => .error "http get failed"
  | .badJson => .error "json decode failed"
  | .body j => .ok (extractPrice j)

/-- Embedding of `fetchPriceFromAPI` (cache.go): try the primary source and
fall back to the second source only when the primary returns an error. -/
def fetchPriceFromAPI (primary fallback : HTTPResp) : Except String ℚ :=
  match fetchPriceFromURL primary with
  | .error _ => fetchPriceFromURL fallback
  | .ok price => .ok price

/-- Embedding of `readCachedPrice` (cache.go): the cached value is rejected
when the file does not exist or its age exceeds 60 minutes
(`time.Since(ModTime) > 60*time.Minute`). -/
def readCachedPrice (cache : Option (ℚ × ℚ)) : Except String ℚ :=
  match cache with
  | none => .error "cache file does not exist or is expired"
  | some (price, age) =>
    if age > 60 then .error "cache file does not exist or is expired"
    else .ok price

/-- Embedding of `cachePrice` (cache.go): writing the price resets the file
age to `0`. -/
def cachePrice (price : ℚ) : Option (ℚ × ℚ) :=
  some (price, 0)

/-- Embedding of `GetAKTPrice` (cache.go).  Returns the price together with
the cache-file state after the call. -/
def GetAKTPrice (cache : Option (ℚ × ℚ)) (primary fallback : HTTPResp) :
    Except String (ℚ × Option (ℚ × ℚ)) :=
  match readCachedPrice cache with
  | .ok price => .ok (price, cache)
  | .error _ =>
    match fetchPriceFromAPI primary fallback with
    | .error e => .error e
    | .ok price => .ok (price, cachePrice price)

/-! ## Resource aggregation and pricing (`pricing.go`) -/

/-- Embedding of the `ResourceRequests` struct (types.go).  CPU and memory are
Go `float64` (here `ℚ`); the storage, IP and endpoint totals are `int64`. -/
structure ResourceRequests where
  CPURequested : ℚ := 0
  MemoryRequested : ℚ := 0
  EphemeralStorageRequested : ℤ := 0
  HDDPersStorageRequested : ℤ := 0
  SSDPersStorageRequested : ℤ := 0
  NVMePersStorageRequested : ℤ := 0
  IPsRequested : ℤ := 0
  EndpointsRequested : ℤ := 0
deriving DecidableEq, Repr

/-- Storage-class resolution from `CalculateRequestedResources`: default to the
entry name, overridden by the first `class` attribute when present. -/
def storageClassOf (storage : StorageEntry) : String :=
  match storage.attributes.find? (fun attr => attr.1 = "class") with
  | some attr => attr.2
  | none => storage.name

/-- Per-storage-entry step of `CalculateRequestedResources`: bytes are divided
by `2^30` with Go integer division (truncation toward zero) and the result,
multiplied by the unit count, is added to the total of the recognized class;
any other class leaves the totals unchanged. -/
def applyStorage (count : ℕ) (result : ResourceRequests) (storage : StorageEntry) :
    ResourceRequests :=
  let storageClass := storageClassOf storage
  let storageGB := Int.tdiv storage.size (1024 * 1024 * 1024)
  if storageClass = "ephemeral" ∨ storageClass = "default" then
    { result with EphemeralStorageRequested :=
        result.EphemeralStorageRequested + storageGB * (count : ℤ) }
  else if storageClass = "beta1" then
    { result with HDDPersStorageRequested :=
        result.HDDPersStorageRequested + storageGB * (count : ℤ) }
  else if storageClass = "beta2" then
    { result with SSDPersStorageRequested :=
        result.SSDPersStorageRequested + storageGB * (count : ℤ) }
  else if storageClass = "beta3" then
    { result with NVMePersStorageRequested :=
        result.NVMePersStorageRequested + storageGB * (count : ℤ) }
  else result

/-- Per-endpoint step of `CalculateRequestedResources`: every endpoint adds
`count` to the endpoint total, and additionally to the IP total when its kind
is `LEASED_IP`. -/
def applyEndpoint (count : ℕ) (result : ResourceRequests) (endpoint : Endpoint) :
    ResourceRequests :=
  let result := { result with EndpointsRequested :=
      result.EndpointsRequested + (count : ℤ) }
  if endpoint.kind = .leasedIP then
    { result with IPsRequested := result.IPsRequested + (count : ℤ) }
  else result

/-- Per-resource-unit body of the loop in `CalculateRequestedResources`. -/
def processResourceUnit (result : ResourceRequests) (resourceUnit : ResourceUnit) :
    ResourceRequests :=
  let result :=
    match resourceUnit.resources.cpu with
    | some cpuUnits =>
      let cpuCores := (cpuUnits : ℚ) / 1000
      { result with CPURequested := result.CPURequested + cpuCores * (resourceUnit.count : ℚ) }
    | none => result
  let result :=
    match resourceUnit.resources.memory with
    | some memoryBytes =>
      let memoryGB := (memoryBytes : ℚ) / (1024 * 1024 * 1024)
      { result with MemoryRequested := result.MemoryRequested + memoryGB * (resourceUnit.count : ℚ) }
    | none => result
  let result := resourceUnit.resources.storage.foldl (applyStorage resourceUnit.count) result
  resourceUnit.resources.endpoints.foldl (applyEndpoint resourceUnit.count) result

/-- Embedding of `CalculateRequestedResources` (pricing.go). -/
def CalculateRequestedResources (gSpec : GroupSpec) : ResourceRequests :=
  gSpec.resources.foldl processResourceUnit {}

/-- Embedding of the `PriceTargets` struct (types.go). -/
structure PriceTargets where
  CPUTarget : ℚ
  MemoryTarget : ℚ
  HDEphemeralTarget : ℚ
  HDPersHDDTarget : ℚ
  HDPersSSDTarget : ℚ
  HDPersNVMETarget : ℚ
  EndpointTarget : ℚ
  IPTarget : ℚ
  GPUMappings : GpuMap
deriving DecidableEq, Repr

/-! Default price-target constants from `pricing.go`. -/

def DefaultCPUTarget : ℚ := 8/5
def DefaultMemoryTarget : ℚ := 4/5
def DefaultHDEphemeralTarget : ℚ := 1/50
def DefaultHDPersHDDTarget : ℚ := 1/100
def DefaultHDPersSSDTarget : ℚ := 3/100
def DefaultHDPersNVMETarget : ℚ := 1/25
def DefaultEndpointTarget : ℚ := 1/20
def DefaultIPTarget : ℚ := 5

/-- Block-cadence constant `AverageBlockTimeSeconds = 6.117` (pricing.go). -/
def AverageBlockTimeSeconds : ℚ := 6117/1000

/-- Calendar constant `DaysPerMonth = 30.437` (pricing.go). -/
def DaysPerMonth : ℚ := 30437/1000

/-- Derived constant `BlocksPerMonth` (pricing.go). -/
def BlocksPerMonth : ℚ := (60 / AverageBlockTimeSeconds) * 24 * 60 * DaysPerMonth

/-- Embedding of `CalculateTotalCostUsdTarget` (pricing.go): the weighted sum
of the aggregated resource totals against the configured price targets. -/
def CalculateTotalCostUsdTarget (resourceRequests : ResourceRequests)
    (priceTargets : PriceTargets) : ℚ :=
  resourceRequests.CPURequested * priceTargets.CPUTarget
    + resourceRequests.MemoryRequested * priceTargets.MemoryTarget
    + (resourceRequests.EphemeralStorageRequested : ℚ) * priceTargets.HDEphemeralTarget
    + (resourceRequests.HDDPersStorageRequested : ℚ) * priceTargets.HDPersHDDTarget
    + (resourceRequests.SSDPersStorageRequested : ℚ) * priceTargets.HDPersSSDTarget
    + (resourceRequests.NVMePersStorageRequested : ℚ) * priceTargets.HDPersNVMETarget
    + (resourceRequests.EndpointsRequested : ℚ) * priceTargets.EndpointTarget
    + (resourceRequests.IPsRequested : ℚ) * priceTargets.IPTarget

/-- Embedding of `CalculateBlockRates` (pricing.go).  The formatted string
`fmt.Sprintf("%.*f", 16, ratePerBlockUakt) + "uakt"` is modelled as the pair
of the fixed precision `16` and the unrounded rate it renders. -/
def CalculateBlockRates (totalCostUsdTarget usdPerAkt : ℚ) (_precision : ℕ) :
    ℚ × ℚ × (ℕ × ℚ) :=
  let totalCostAktTarget := totalCostUsdTarget / usdPerAkt
  let totalCostUaktTarget := totalCostAktTarget * 1000000
  let ratePerBlockUakt := totalCostUaktTarget / BlocksPerMonth
  let ratePerBlockUsd := totalCostUsdTarget / BlocksPerMonth
  (ratePerBlockUakt, ratePerBlockUsd, (16, ratePerBlockUakt))

/-! ## Whitelist / special pricing (`whitelist.go`) -/

/-- Embedding of `SpecialPricing` (whitelist.go): membership in the two-entry
hard-coded special-account map. -/
def SpecialPricing (owner : String) : Bool :=
  owner = "akash1fxa9ss3dg6nqyz8aluyaa6svypgprk5tw9fa4q"
    || owner = "akash1fhe3uk7d95vvr69pna7cxmwa8777as46uyxcz8"

/-! ## Bid decision and entry point (`pricing.go`) -/

/-- Error values produced by `HandleDenomLogic` and `RequestToBidPrice`,
one constructor per `fmt.Errorf` site, carrying the data interpolated into
the message. -/
inductive PErr where
  | ownerNotSpecified
  | whitelistFailed (msg : String)
  | errorGettingAKTPrice (msg : String)
  | priceInfoMissing
  | groupSpecNil
  | rateTooLow (precision : ℕ) (minRate : ℚ) (denom : String)
  | denomNotSupported (denom : String)
deriving DecidableEq, Repr

def ibcDenom1 : String :=
  "ibc/12C6A0C374171B595A0A9E18B83FA09D295FB1F2D8C6DAA3AC28683471752D84"

def ibcDenom2 : String :=
  "ibc/170C677610AC31DF0904FFE09CD3B5C657492170E7E52372E48756B71E56F2F1"

/-- Embedding of `HandleDenomLogic` (pricing.go).  A successful outcome is the
`fmt.Sprintf("%.*f", precision, rate)` result, modelled as the precision paired
with the unrounded rate it renders. -/
def HandleDenomLogic (denom : String) (ratePerBlockUakt ratePerBlockUsd : ℚ)
    (precision : ℕ) (amount : ℚ) : Except PErr (ℕ × ℚ) :=
  if denom = "uakt" then
    if ratePerBlockUakt > amount then
      .error (.rateTooLow precision ratePerBlockUakt denom)
    else .ok (precision, ratePerBlockUakt)
  else if denom = ibcDenom1 ∨ denom = ibcDenom2 then
    let ratePerBlockUsdNormalized := ratePerBlockUsd * 1000000
    if ratePerBlockUsdNormalized > amount then
      .error (.rateTooLow precision ratePerBlockUsdNormalized denom)
    else .ok (precision, ratePerBlockUsdNormalized)
  else .error (.denomNotSupported denom)

/-- Successful outcomes of `RequestToBidPrice`: the special fixed rate printed
for the hard-coded accounts, or the per-block rate underlying the printed
`finalRateStr`. -/
inductive BidOutcome where
  | special (rate : String)
  | priced (ratePerBlockUakt : ℚ)
deriving DecidableEq, Repr

/-- Execution environment of `RequestToBidPrice`: the outcome of the
`CheckWhitelist` collaborator, the price cache-file state, the two HTTP
sources, and the configured price targets (`SetPriceTargets` reads these
from the environment). -/
structure Env where
  whitelist : Except String Unit
  cache : Option (ℚ × ℚ)
  primary : HTTPResp
  fallback : HTTPResp
  priceTargets : PriceTargets

/-- Embedding of `RequestToBidPrice` (pricing.go), following the source order:
empty-owner check, denom/amount extraction from the first resource unit,
special pricing, whitelist, AKT price fetch, price-information check,
precision defaulting, `GroupSpec` nil check, then resource pricing and the
per-block rate computation.  As in the source, `HandleDenomLogic` is never
invoked on this path and the computed rate is returned unconditionally. -/
def RequestToBidPrice (env : Env) (request : Request) : Except PErr BidOutcome :=
  if request.owner = "" then .error .ownerNotSpecified
  else
    let da : String × ℚ :=
      match request.gspec with
      | some gSpec =>
        match gSpec.resources with
        | resourceUnit :: _ => (resourceUnit.price.denom, resourceUnit.price.amount)
        | [] => ("", 0)
      | none => ("", 0)
    let denom := da.1
    let amount := da.2
    if SpecialPricing request.owner then .ok (.special "1.00")
    else
      match env.whitelist with
      | .error e => .error (.whitelistFailed e)
      | .ok _ =>
        match GetAKTPrice env.cache env.primary env.fallback with
        | .error e => .error (.errorGettingAKTPrice e)
        | .ok (usdPerAkt, _) =>
          if denom = "" ∨ amount = 0 then .error .priceInfoMissing
          else
            let precision := if request.pricePrecision = 0 then 6 else request.pricePrecision
            match request.gspec with
            | none => .error .groupSpecNil
            | some gSpec =>
              let priceTargets := env.priceTargets
              let maxGPUPrice := MaxGPUPrice priceTargets.GPUMappings
              let totalGPUPrice := CalculateTotalGPUPrice gSpec priceTargets.GPUMappings maxGPUPrice
              let resourceRequests := CalculateRequestedResources gSpec
              let totalCostUsdTarget :=
                CalculateTotalCostUsdTarget resourceRequests priceTargets + totalGPUPrice
              let rates := CalculateBlockRates totalCostUsdTarget usdPerAkt precision
              .ok (.priced rates.1)

/-- Claim-side per-entry ephemeral-storage contribution. -/
def ephemeralContribution (count : ℕ) (st : StorageEntry) : ℤ :=
  if storageClassOf st = "ephemeral" ∨ storageClassOf st = "default" then
    Int.tdiv st.size (2 ^ 30) * count
  else 0

/-- Claim-side per-entry HDD-persistent-storage contribution. -/
def hddContribution (count : ℕ) (st : StorageEntry) : ℤ :=
  if storageClassOf st = "beta1" then Int.tdiv st.size (2 ^ 30) * count else 0

/-- Claim-side per-entry SSD-persistent-storage contribution. -/
def ssdContribution (count : ℕ) (st : StorageEntry) : ℤ :=
  if storageClassOf st = "beta2" then Int.tdiv st.size (2 ^ 30) * count else 0

/-- Claim-side per-entry NVMe-persistent-storage contribution. -/
def nvmeContribution (count : ℕ) (st : StorageEntry) : ℤ :=
  if storageClassOf st = "beta3" then Int.tdiv st.size (2 ^ 30) * count else 0

/-- Claim-side well-formedness of one mapping segment: splitting on the
equals sign yields exactly a key and a value, and the value parses as a
float. -/
def wellFormedPair (pf : String → Option ℚ) (pair : String) : Bool :=
  match goSplit '=' pair with
  | [_, vs] => (pf vs).isSome
  | _ => false

/-- Price targets at the source defaults, as produced by `SetPriceTargets`
with no environment overrides and an empty GPU mapping. -/
def defaultPriceTargets : PriceTargets :=
  ⟨DefaultCPUTarget, DefaultMemoryTarget, DefaultHDEphemeralTarget, DefaultHDPersHDDTarget,
   DefaultHDPersSSDTarget, DefaultHDPersNVMETarget, DefaultEndpointTarget, DefaultIPTarget, []⟩

/-- Test fixture: a request whose single GPU descriptor carries only model and
vram attributes (empty interface). -/
def modelVramOnlySpec : GroupSpec :=
  ⟨[⟨⟨none, none, some ⟨1, [("vendor/nvidia/model/a100/ram/80gi", "true")]⟩, [], []⟩,
     1, ⟨"uakt", 100⟩⟩]⟩

/-- Test fixture: a GPU price mapping holding only the model-level key. -/
def modelOnlyMapping : GpuMap := [("a100", 200)]

/-- Test fixture: an environment with the whitelist passing, a fresh cached
exchange rate of 3, both HTTP sources down, and default price targets. -/
def unsupportedDenomEnv : Env :=
  ⟨.ok (), some (3, 0), .netError, .netError, defaultPriceTargets⟩

/-- Test fixture: a request from a non-special owner whose first resource unit
declares the unsupported denomination string with a non-zero ceiling. -/
def unsupportedDenomRequest : Request :=
  ⟨"akash1notspecial", some ⟨[⟨⟨none, none, none, [], []⟩, 1, ⟨"uusdc", 5⟩⟩]⟩, 6⟩

/-! ## Helper lemmas -/

/-- Folding a step that adds `g x` to a projection adds the mapped sum. -/
theorem foldl_proj_add {A X M : Type _} [AddCommMonoid M] (f : A → X → A)
    (proj : A → M) (g : X → M) (h : ∀ a x, proj (f a x) = proj a + g x) :
    ∀ (l : List X) (a : A), proj (l.foldl f a) = proj a + (l.map g).sum
  | [], a => by simp
  | x :: l, a => by
    rw [List.foldl_cons, foldl_proj_add f proj g h l (f a x), h, List.map_cons,
      List.sum_cons, add_assoc]

/-- Folding a step that preserves a projection preserves it. -/
theorem foldl_proj_const {A X M : Type _} (f : A → X → A)
    (proj : A → M) (h : ∀ a x, proj (f a x) = proj a) :
    ∀ (l : List X) (a : A), proj (l.foldl f a) = proj a
  | [], _ => rfl
  | x :: l, a => by rw [List.foldl_cons, foldl_proj_const f proj h l, h]

theorem pow_two_thirty : (1024 * 1024 * 1024 : ℤ) = 2 ^ 30 := by norm_num

theorem applyStorage_cpu (count : ℕ) (acc : ResourceRequests) (st : StorageEntry) :
    (applyStorage count acc st).CPURequested = acc.CPURequested := by
  unfold applyStorage; dsimp only; split_ifs <;> rfl

theorem applyStorage_eph (count : ℕ) (acc : ResourceRequests) (st : StorageEntry) :
    (applyStorage count acc st).EphemeralStorageRequested
      = acc.EphemeralStorageRequested + ephemeralContribution count st := by
  unfold applyStorage ephemeralContribution
  dsimp only
  rw [pow_two_thirty]
  split_ifs <;> simp_all

theorem applyStorage_hdd (count : ℕ) (acc : ResourceRequests) (st : StorageEntry) :
    (applyStorage count acc st).HDDPersStorageRequested
      = acc.HDDPersStorageRequested + hddContribution count st := by
  unfold applyStorage hddContribution
  dsimp only
  rw [pow_two_thirty]
  split_ifs <;> simp_all

theorem applyStorage_ssd (count : ℕ) (acc : ResourceRequests) (st : StorageEntry) :
    (applyStorage count acc st).SSDPersStorageRequested
      = acc.SSDPersStorageRequested + ssdContribution count st := by
  unfold applyStorage ssdContribution
  dsimp only
  rw [pow_two_thirty]
  split_ifs <;> simp_all

theorem applyStorage_nvme (count : ℕ) (acc : ResourceRequests) (st : StorageEntry) :
    (applyStorage count acc st).NVMePersStorageRequested
      = acc.NVMePersStorageRequested + nvmeContribution count st := by
  unfold applyStorage nvmeContribution
  dsimp only
  rw [pow_two_thirty]
  split_ifs <;> simp_all

theorem applyEndpoint_cpu (count : ℕ) (acc : ResourceRequests) (e : Endpoint) :
    (applyEndpoint count acc e).CPURequested = acc.CPURequested := by
  unfold applyEndpoint; dsimp only; split_ifs <;> rfl

theorem applyEndpoint_eph (count : ℕ) (acc : ResourceRequests) (e : Endpoint) :
    (applyEndpoint count acc e).EphemeralStorageRequested
      = acc.EphemeralStorageRequested := by
  unfold applyEndpoint; dsimp only; split_ifs <;> rfl

theorem applyEndpoint_hdd (count : ℕ) (acc : ResourceRequests) (e : Endpoint) :
    (applyEndpoint count acc e).HDDPersStorageRequested
      = acc.HDDPersStorageRequested := by
  unfold applyEndpoint; dsimp only; split_ifs <;> rfl

theorem applyEndpoint_ssd (count : ℕ) (acc : ResourceRequests) (e : Endpoint) :
    (applyEndpoint count acc e).SSDPersStorageRequested
      = acc.SSDPersStorageRequested := by
  unfold applyEndpoint; dsimp only; split_ifs <;> rfl

theorem applyEndpoint_nvme (count : ℕ) (acc : ResourceRequests) (e : Endpoint) :
    (applyEndpoint count acc e).NVMePersStorageRequested
      = acc.NVMePersStorageRequested := by
  unfold applyEndpoint; dsimp only; split_ifs <;> rfl

theorem processResourceUnit_cpu (acc : ResourceRequests) (u : ResourceUnit) :
    (processResourceUnit acc u).CPURequested
      = acc.CPURequested + ((u.resources.cpu.getD 0 : ℚ) / 1000) * u.count := by
  unfold processResourceUnit
  rw [foldl_proj_const (applyEndpoint u.count) (fun r => r.CPURequested)
    (applyEndpoint_cpu u.count · ·)]
  rw [foldl_proj_const (applyStorage u.count) (fun r => r.CPURequested)
    (applyStorage_cpu u.count · ·)]
  cases u.resources.cpu <;> cases u.resources.memory <;> simp

theorem processResourceUnit_eph (acc : ResourceRequests) (u : ResourceUnit) :
    (processResourceUnit acc u).EphemeralStorageRequested
      = acc.EphemeralStorageRequested
        + (u.resources.storage.map (ephemeralContribution u.count)).sum := by
  unfold processResourceUnit
  rw [foldl_proj_const (applyEndpoint u.count) (fun r => r.EphemeralStorageRequested)
    (applyEndpoint_eph u.count · ·)]
  rw [foldl_proj_add (applyStorage u.count) (fun r => r.EphemeralStorageRequested)
    (ephemeralContribution u.count) (applyStorage_eph u.count · ·)]
  cases u.resources.cpu <;> cases u.resources.memory <;> simp

theorem processResourceUnit_hdd (acc : ResourceRequests) (u : ResourceUnit) :
    (processResourceUnit acc u).HDDPersStorageRequested
      = acc.HDDPersStorageRequested
        + (u.resources.storage.map (hddContribution u.count)).sum := by
  unfold processResourceUnit
  rw [foldl_proj_const (applyEndpoint u.count) (fun r => r.HDDPersStorageRequested)
    (applyEndpoint_hdd u.count · ·)]
  rw [foldl_proj_add (applyStorage u.count) (fun r => r.HDDPersStorageRequested)
    (hddContribution u.count) (applyStorage_hdd u.count · ·)]
  cases u.resources.cpu <;> cases u.resources.memory <;> simp

theorem processResourceUnit_ssd (acc : ResourceRequests) (u : ResourceUnit) :
    (processResourceUnit acc u).SSDPersStorageRequested
      = acc.SSDPersStorageRequested
        + (u.resources.storage.map (ssdContribution u.count)).sum := by
  unfold processResourceUnit
  rw [foldl_proj_const (applyEndpoint u.count) (fun r => r.SSDPersStorageRequested)
    (applyEndpoint_ssd u.count · ·)]
  rw [foldl_proj_add (applyStorage u.count) (fun r => r.SSDPersStorageRequested)
    (ssdContribution u.count) (applyStorage_ssd u.count · ·)]
  cases u.resources.cpu <;> cases u.resources.memory <;> simp

theorem processResourceUnit_nvme (acc : ResourceRequests) (u : ResourceUnit) :
    (processResourceUnit acc u).NVMePersStorageRequested
      = acc.NVMePersStorageRequested
        + (u.resources.storage.map (nvmeContribution u.count)).sum := by
  unfold processResourceUnit
  rw [foldl_proj_const (applyEndpoint u.count) (fun r => r.NVMePersStorageRequested)
    (applyEndpoint_nvme u.count · ·)]
  rw [foldl_proj_add (applyStorage u.count) (fun r => r.NVMePersStorageRequested)
    (nvmeContribution u.count) (applyStorage_nvme u.count · ·)]
  cases u.resources.cpu <;> cases u.resources.memory <;> simp

theorem calcRR_cpu (gSpec : GroupSpec) :
    (CalculateRequestedResources gSpec).CPURequested
      = (gSpec.resources.map
          (fun u => ((u.resources.cpu.getD 0 : ℚ) / 1000) * u.count)).sum := by
  unfold CalculateRequestedResources
  rw [foldl_proj_add processResourceUnit (fun r => r.CPURequested)
    (fun u => ((u.resources.cpu.getD 0 : ℚ) / 1000) * u.count)
    (processResourceUnit_cpu · ·)]
  simp

theorem calcRR_eph (gSpec : GroupSpec) :
    (CalculateRequestedResources gSpec).EphemeralStorageRequested
      = (gSpec.resources.map
          (fun u => (u.resources.storage.map (ephemeralContribution u.count)).sum)).sum := by
  unfold CalculateRequestedResources
  rw [foldl_proj_add processResourceUnit (fun r => r.EphemeralStorageRequested)
    (fun u => (u.resources.storage.map (ephemeralContribution u.count)).sum)
    (processResourceUnit_eph · ·)]
  simp

theorem calcRR_hdd (gSpec : GroupSpec) :
    (CalculateRequestedResources gSpec).HDDPersStorageRequested
      = (gSpec.resources.map
          (fun u => (u.resources.storage.map (hddContribution u.count)).sum)).sum := by
  unfold CalculateRequestedResources
  rw [foldl_proj_add processResourceUnit (fun r => r.HDDPersStorageRequested)
    (fun u => (u.resources.storage.map (hddContribution u.count)).sum)
    (processResourceUnit_hdd · ·)]
  simp

theorem calcRR_ssd (gSpec : GroupSpec) :
    (CalculateRequestedResources gSpec).SSDPersStorageRequested
      = (gSpec.resources.map
          (fun u => (u.resources.storage.map (ssdContribution u.count)).sum)).sum := by
  unfold CalculateRequestedResources
  rw [foldl_proj_add processResourceUnit (fun r => r.SSDPersStorageRequested)
    (fun u => (u.resources.storage.map (ssdContribution u.count)).sum)
    (processResourceUnit_ssd · ·)]
  simp

theorem calcRR_nvme (gSpec : GroupSpec) :
    (CalculateRequestedResources gSpec).NVMePersStorageRequested
      = (gSpec.resources.map
          (fun u => (u.resources.storage.map (nvmeContribution u.count)).sum)).sum := by
  unfold CalculateRequestedResources
  rw [foldl_proj_add processResourceUnit (fun r => r.NVMePersStorageRequested)
    (fun u => (u.resources.storage.map (nvmeContribution u.count)).sum)
    (processResourceUnit_nvme · ·)]
  simp

/-- Error characterization of the segment loop: processing fails exactly when
some non-empty segment is not of the `key=number` form. -/
theorem parsePairs_isOk_iff (pf : String → Option ℚ) :
    ∀ (l : List String) (m : GpuMap),
      (parsePairs pf l m).isOk = false
        ↔ ∃ pair ∈ l, pair ≠ "" ∧ wellFormedPair pf pair = false := by
  intro l
  induction l with
  | nil => intro m; simp [parsePairs, Except.isOk, Except.toBool]
  | cons pair rest ih =>
    intro m
    by_cases hp : pair = ""
    · subst hp
      simp [parsePairs, ih]
    · rcases hsplit : goSplit '=' pair with _ | ⟨k, _ | ⟨vs, _ | _⟩⟩
      · simp [parsePairs, hp, hsplit, wellFormedPair, Except.isOk, Except.toBool]
      · simp [parsePairs, hp, hsplit, wellFormedPair, Except.isOk, Except.toBool]
      · cases hpf : pf vs with
        | some v =>
          simp [parsePairs, hp, hsplit, hpf, ih, wellFormedPair]
        | none =>
          simp [parsePairs, hp, hsplit, hpf, wellFormedPair, Except.isOk, Except.toBool]
      · simp [parsePairs, hp, hsplit, wellFormedPair, Except.isOk, Except.toBool]

/-- Empty comma segments are skipped: the segment loop is unchanged when they
are filtered out. -/
theorem parsePairs_skip_empty (pf : String → Option ℚ) :
    ∀ (l : List String) (m : GpuMap),
      parsePairs pf l m = parsePairs pf (l.filter (fun pair => pair ≠ "")) m := by
  intro l
  induction l with
  | nil => intro m; rfl
  | cons pair rest ih =>
    intro m
    by_cases hp : pair = ""
    · subst hp; simp [parsePairs, ih]
    · rcases hsplit : goSplit '=' pair with _ | ⟨k, _ | ⟨vs, _ | _⟩⟩ <;>
        simp [parsePairs, hp, hsplit, ih]

/-- Characterization of the `MaxGPUPrice` fold from an arbitrary start value:
the result dominates the start and every mapping value, and equals one of
them. -/
theorem maxFoldChar :
    ∀ (l : GpuMap) (a : ℚ),
      a ≤ List.foldl (fun maxPrice p => if p.2 > maxPrice then p.2 else maxPrice) a l
      ∧ (∀ p ∈ l,
          p.2 ≤ List.foldl (fun maxPrice p => if p.2 > maxPrice then p.2 else maxPrice) a l)
      ∧ (List.foldl (fun maxPrice p => if p.2 > maxPrice then p.2 else maxPrice) a l = a
         ∨ ∃ p ∈ l,
            List.foldl (fun maxPrice p => if p.2 > maxPrice then p.2 else maxPrice) a l = p.2) := by
  intro l
  induction l with
  | nil => intro a; simp
  | cons x l ih =>
    intro a
    simp only [List.foldl_cons]
    obtain ⟨h1, h2, h3⟩ := ih (if x.2 > a then x.2 else a)
    have hab : a ≤ (if x.2 > a then x.2 else a) := by split_ifs with h <;> linarith
    have hxb : x.2 ≤ (if x.2 > a then x.2 else a) := by split_ifs with h <;> linarith
    refine ⟨le_trans hab h1, ?_, ?_⟩
    · intro p hp
      rcases List.mem_cons.mp hp with rfl | hp
      · exact le_trans hxb h1
      · exact h2 p hp
    · rcases h3 with h3 | ⟨p, hp, h3⟩
      · rw [h3]
        split_ifs with h
        · exact Or.inr ⟨x, List.mem_cons_self x l, rfl⟩
        · exact Or.inl rfl
      · exact Or.inr ⟨p, List.mem_cons_of_mem x hp, h3⟩

/-- Dividing each summand by 1000 is the same as dividing the sum. -/
theorem sumMapDivThousand (l : List ResourceUnit) :
    (l.map (fun u => ((u.resources.cpu.getD 0 : ℚ) / 1000) * u.count)).sum
      = (l.map (fun u => (u.resources.cpu.getD 0 : ℚ) * u.count)).sum / 1000 := by
  induction l with
  | nil => simp
  | cons u l ih =>
    simp only [List.map_cons, List.sum_cons, ih, add_div]
    ring_nf

/-! ## Claim theorems -/

/-- Claim C1 (evaluation at the failing input).  The claim states that a GPU
descriptor carrying only model and vram attributes whose `model.vram` key is
absent from the mapping still falls back to the model-only key and then to
the default price.  In the code the fallback chain is guarded by
`interfaceType != ""`, so this descriptor prices at the Go zero value `0`
even though the model-only key `a100` is present with value `200` (which is
also the default price here). -/
theorem C1_gpu_model_vram_descriptor_prices_zero :
    parseGPUAttributes [("vendor/nvidia/model/a100/ram/80gi", "true")] = ("a100", "80gi", "")
    ∧ lookupMap modelOnlyMapping "a100" = some 200
    ∧ MaxGPUPrice modelOnlyMapping = 200
    ∧ CalculateTotalGPUPrice modelVramOnlySpec modelOnlyMapping (MaxGPUPrice modelOnlyMapping)
        = 0 := by
  refine ⟨by decide, by decide, by decide, ?_⟩
  have h1 : parseGPUAttributes [("vendor/nvidia/model/a100/ram/80gi", "true")]
      = ("a100", "80gi", "") := by decide
  have h2 : resolveGPUPrice modelOnlyMapping "a100" "80gi" "" (MaxGPUPrice modelOnlyMapping)
      = 0 := by decide
  simp [CalculateTotalGPUPrice, modelVramOnlySpec, h1, h2]

/-- Claim C2 (evaluation at the failing input).  The claim states that
`RequestToBidPrice` rejects every request whose denomination is not `uakt`
and not one of the two IBC stablecoins with a "denom not supported" error and
produces no priced output.  In the code `RequestToBidPrice` never invokes
`HandleDenomLogic`: on a request with denomination `uusdc` it succeeds and
produces a priced output, although `HandleDenomLogic` itself would reject
that denomination. -/
theorem C2_unsupported_denom_accepted_by_request_path :
    RequestToBidPrice unsupportedDenomEnv unsupportedDenomRequest = .ok (.priced 0)
    ∧ HandleDenomLogic "uusdc" 0 0 6 5 = .error (.denomNotSupported "uusdc") := by
  constructor
  · simp [RequestToBidPrice, unsupportedDenomEnv, unsupportedDenomRequest, SpecialPricing,
      GetAKTPrice, readCachedPrice, CalculateRequestedResources, processResourceUnit,
      CalculateTotalCostUsdTarget, CalculateTotalGPUPrice, CalculateBlockRates]
    norm_num
  · simp [HandleDenomLogic, ibcDenom1, ibcDenom2]

/-- Claim C3, counterexample.  The claim states that a response from the
primary source lacking the expected price field is treated as a source
failure and the fallback is attempted, and that the price-feed path never
returns success with a zero rate in that situation.  In the code a decoded
empty JSON object makes `extractPrice` return `0` with no error, so the fetch
succeeds with rate `0` and the fallback (which here would have produced `5`)
is never consulted. -/
theorem C3_missing_price_field_yields_success_zero :
    fetchPriceFromAPI (.body (.obj [])) (.body (.obj [("price", .num 5)])) = .ok 0
    ∧ extractPrice (.obj []) = 0 :=
  ⟨rfl, rfl⟩

/-- Claim C3, amended.  The fallback source is attempted exactly on a network
error or a JSON decode failure of the primary source; any decoded body —
including one lacking a usable price field — yields success with the
extracted rate (`0` when the field is absent), without consulting the
fallback. -/
theorem C3_fallback_only_on_network_or_decode_failure :
    ∀ fallback : HTTPResp,
      fetchPriceFromAPI .netError fallback = fetchPriceFromURL fallback
      ∧ fetchPriceFromAPI .badJson fallback = fetchPriceFromURL fallback
      ∧ ∀ j : Json, fetchPriceFromAPI (.body j) fallback = .ok (extractPrice j) :=
  fun _ => ⟨rfl, rfl, fun _ => rfl⟩

/-- Claim C4.  In `HandleDenomLogic` the ceiling comparison is strict for the
native micro-unit branch and for both stablecoin branches: the error is
returned exactly when the computed (normalized) rate strictly exceeds the
ceiling, a rate equal to the ceiling is accepted, and the accepted outcome is
the rate formatted at the requested precision. -/
theorem C4_ceiling_comparison_strict (ratePerBlockUakt ratePerBlockUsd : ℚ)
    (precision : ℕ) (amount : ℚ) :
    HandleDenomLogic "uakt" ratePerBlockUakt ratePerBlockUsd precision amount
      = (if ratePerBlockUakt > amount
         then .error (.rateTooLow precision ratePerBlockUakt "uakt")
         else .ok (precision, ratePerBlockUakt))
    ∧ HandleDenomLogic ibcDenom1 ratePerBlockUakt ratePerBlockUsd precision amount
      = (if ratePerBlockUsd * 1000000 > amount
         then .error (.rateTooLow precision (ratePerBlockUsd * 1000000) ibcDenom1)
         else .ok (precision, ratePerBlockUsd * 1000000))
    ∧ HandleDenomLogic ibcDenom2 ratePerBlockUakt ratePerBlockUsd precision amount
      = (if ratePerBlockUsd * 1000000 > amount
         then .error (.rateTooLow precision (ratePerBlockUsd * 1000000) ibcDenom2)
         else .ok (precision, ratePerBlockUsd * 1000000))
    ∧ HandleDenomLogic "uakt" amount ratePerBlockUsd precision amount
        = .ok (precision, amount) := by
  refine ⟨?_, ?_, ?_, ?_⟩
  · simp [HandleDenomLogic]
  · simp [HandleDenomLogic, ibcDenom1, ibcDenom2]
  · simp [HandleDenomLogic, ibcDenom1, ibcDenom2]
  · simp [HandleDenomLogic]

/-- Claim C5, counterexample.  The claim states that for every non-empty
mapping `MaxGPUPrice` returns the maximum of the mapping's values, including
when all values are below `100`.  The fold starts at the fixed default `100`,
so the singleton mapping with value `50` yields `100`, not `50`. -/
theorem C5_max_price_floor_counterexample :
    MaxGPUPrice [("a", 50)] = 100 ∧ (100 : ℚ) ≠ 50 := by
  decide

/-- Claim C5, amended.  `MaxGPUPrice` returns the maximum of the fixed default
`100` and the mapping's values: the result is at least `100`, dominates every
value in the mapping, and is either `100` or one of the mapping's values (for
the empty mapping it is `100`). -/
theorem C5_max_price_is_max_of_values_and_floor (gpuMappings : GpuMap) :
    100 ≤ MaxGPUPrice gpuMappings
    ∧ (∀ p ∈ gpuMappings, p.2 ≤ MaxGPUPrice gpuMappings)
    ∧ (MaxGPUPrice gpuMappings = 100 ∨ ∃ p ∈ gpuMappings, MaxGPUPrice gpuMappings = p.2) := by
  have h := maxFoldChar gpuMappings 100
  simpa [MaxGPUPrice] using h

/-- Witness for the amended claim C5: instantiating the bound at the concrete
mapping with value `150`. -/
theorem C5_max_price_witness : (150 : ℚ) ≤ MaxGPUPrice [("a", 150)] :=
  (C5_max_price_is_max_of_values_and_floor [("a", 150)]).2.1 ("a", 150) (by simp)

/-- Claim C6, counterexample.  The claim states that a cache entry aged
exactly 60 minutes is treated as absent and triggers a fetch.  The code
rejects the cache only when its age is strictly greater than 60 minutes, so
at exactly 60 minutes the cached value is returned even with both sources
down. -/
theorem C6_cache_age_sixty_counterexample :
    GetAKTPrice (some (3, 60)) .netError .netError = .ok (3, some (3, 60)) :=
  rfl

/-- Claim C6, amended.  `GetAKTPrice` returns the cached value without any
fetch while the cache-file age is at most 60 minutes; when the age exceeds 60
minutes, or the file is missing, it fetches from the sources and on success
overwrites the cache (failing only when both sources fail). -/
theorem C6_cache_freshness_boundary (price age : ℚ) (primary fallback : HTTPResp) :
    GetAKTPrice (some (price, age)) primary fallback
      = (if age > 60 then
           match fetchPriceFromAPI primary fallback with
           | .error e => .error e
           | .ok q => .ok (q, some (q, 0))
         else .ok (price, some (price, age)))
    ∧ GetAKTPrice none primary fallback
      = (match fetchPriceFromAPI primary fallback with
         | .error e => .error e
         | .ok q => .ok (q, some (q, 0))) := by
  constructor
  · by_cases h : age > 60
    · simp only [GetAKTPrice, readCachedPrice, cachePrice, if_pos h]
    · simp [GetAKTPrice, readCachedPrice, cachePrice, h]
  · simp only [GetAKTPrice, readCachedPrice, cachePrice]

/-- Claim C7.  For every storage entry the aggregator resolves the class as
the explicit `class` attribute when present and the entry name otherwise, and
each of the four storage totals equals the sum over all units and entries of
the per-entry contribution: byte size divided by `2 ^ 30` with truncating
integer division, times the unit count, counted only for the recognized
class (so an entry with an unrecognized class contributes zero to all four
totals, with no error possible). -/
theorem C7_storage_aggregation (gSpec : GroupSpec) :
    (∀ st : StorageEntry,
        storageClassOf st
          = (((st.attributes.find? (fun attr => attr.1 = "class")).map
              (fun attr => attr.2)).getD st.name))
    ∧ (CalculateRequestedResources gSpec).EphemeralStorageRequested
        = (gSpec.resources.map
            (fun u => (u.resources.storage.map (ephemeralContribution u.count)).sum)).sum
    ∧ (CalculateRequestedResources gSpec).HDDPersStorageRequested
        = (gSpec.resources.map
            (fun u => (u.resources.storage.map (hddContribution u.count)).sum)).sum
    ∧ (CalculateRequestedResources gSpec).SSDPersStorageRequested
        = (gSpec.resources.map
            (fun u => (u.resources.storage.map (ssdContribution u.count)).sum)).sum
    ∧ (CalculateRequestedResources gSpec).NVMePersStorageRequested
        = (gSpec.resources.map
            (fun u => (u.resources.storage.map (nvmeContribution u.count)).sum)).sum := by
  refine ⟨?_, calcRR_eph gSpec, calcRR_hdd gSpec, calcRR_ssd gSpec, calcRR_nvme gSpec⟩
  intro st
  unfold storageClassOf
  cases st.attributes.find? (fun attr => attr.1 = "class") <;> simp

/-- Claim C8.  The normalized CPU total equals the sum over all units of
milli-cores times repetition count, divided by 1000 — exactly in the rational
model, hence within the claimed absolute tolerance of `1e-9`. -/
theorem C8_cpu_normalization (gSpec : GroupSpec) :
    (CalculateRequestedResources gSpec).CPURequested
      = (gSpec.resources.map
          (fun u => (u.resources.cpu.getD 0 : ℚ) * u.count)).sum / 1000
    ∧ |(CalculateRequestedResources gSpec).CPURequested
        - (gSpec.resources.map
            (fun u => (u.resources.cpu.getD 0 : ℚ) * u.count)).sum / 1000|
      ≤ 1 / 1000000000 := by
  have h : (CalculateRequestedResources gSpec).CPURequested
      = (gSpec.resources.map
          (fun u => (u.resources.cpu.getD 0 : ℚ) * u.count)).sum / 1000 := by
    rw [calcRR_cpu, sumMapDivThousand]
  refine ⟨h, ?_⟩
  rw [h]
  simp

/-- Claim C9.  For every environment and every request whose owner is one of
the two hard-coded special accounts, `RequestToBidPrice` succeeds with the
fixed special rate before the whitelist check, the price fetch, the
denomination and ceiling validation, and all resource pricing — in
particular even when the whitelist fails, both price sources are down, and
the denomination is unsupported. -/
theorem C9_special_owner_short_circuit (env : Env) (request : Request)
    (h : SpecialPricing request.owner = true) :
    RequestToBidPrice env request = .ok (.special "1.00") := by
  have hne : request.owner ≠ "" := by
    rcases (by simpa [SpecialPricing] using h :
        request.owner = "akash1fxa9ss3dg6nqyz8aluyaa6svypgprk5tw9fa4q"
          ∨ request.owner = "akash1fhe3uk7d95vvr69pna7cxmwa8777as46uyxcz8") with h1 | h1 <;>
      (rw [h1]; decide)
  unfold RequestToBidPrice
  simp [hne, h]

/-- Witness for claim C9: the first special account succeeds with the special
rate although the whitelist is erroring, both price sources are down, and the
declared denomination is unsupported. -/
theorem C9_special_owner_witness :
    RequestToBidPrice
      ⟨.error "whitelist unavailable", none, .netError, .netError, defaultPriceTargets⟩
      ⟨"akash1fxa9ss3dg6nqyz8aluyaa6svypgprk5tw9fa4q",
        some ⟨[⟨⟨none, none, none, [], []⟩, 1, ⟨"uusdc", 5⟩⟩]⟩, 6⟩
      = .ok (.special "1.00") :=
  C9_special_owner_short_circuit _ _ (by decide)

/-- Claim C10.  `ParseGPUPriceMappings` fails exactly when some non-empty
comma-separated segment of the input is not of the form `key=number` with the
number parseable by the float parser; the empty input yields an empty mapping
with no error, and empty segments are silently skipped by the segment loop. -/
theorem C10_parse_error_iff_bad_segment (pf : String → Option ℚ) (mappingStr : String) :
    ((ParseGPUPriceMappings pf mappingStr).isOk = false
      ↔ ∃ pair ∈ goSplit ',' mappingStr, pair ≠ "" ∧ wellFormedPair pf pair = false)
    ∧ ParseGPUPriceMappings pf "" = .ok []
    ∧ (∀ (l : List String) (m : GpuMap),
        parsePairs pf l m = parsePairs pf (l.filter (fun pair => pair ≠ "")) m) := by
  refine ⟨?_, rfl, parsePairs_skip_empty pf⟩
  unfold ParseGPUPriceMappings
  by_cases hs : mappingStr = ""
  · subst hs
    simp [Except.isOk, Except.toBool, show goSplit ',' "" = [""] from rfl]
  · simp only [if_neg hs]
    exact parsePairs_isOk_iff pf (goSplit ',' mappingStr) []

/-- Witness for claim C10: a concrete parser and input with a malformed final
segment make the parse fail. -/
theorem C10_parse_witness :
    (ParseGPUPriceMappings (fun vs => if vs = "1" then some 1 else none) "a=1,b").isOk
      = false := by
  refine ((C10_parse_error_iff_bad_segment
    (fun vs => if vs = "1" then some 1 else none) "a=1,b").1).mpr ?_
  exact ⟨"b", by decide, by decide, by decide⟩

end PricingModel
